import Mathlib

/-
Verification of the final GC lowering pass (llvm-final-gc-lowering.cpp of the
mmtk/julia tree).  The pass rewrites platform-agnostic GC intrinsics
(julia.new_gc_frame, julia.push_gc_frame, julia.pop_gc_frame,
julia.get_gc_frame_slot, julia.gc_alloc_bytes, julia.queue_gc_root,
julia.safepoint and the MMTk write-barrier intrinsics) into concrete
instruction sequences.  The definitions below are a shallow embedding of the
individual lowering routines: each routine is modelled as a pure function from
the data it inspects (argument values, compile-time configuration) to a record
describing the instruction sequence it emits and the bookkeeping it performs
(replacement of uses, erasure of the original call, attached attributes).
Machine integers are modelled as natural numbers reduced modulo two to the
word width at every operation, exactly as the emitted two-complement
instructions behave.
-/

namespace FinalGC

/-- Pointer size in bytes on the 64-bit targets this lowering addresses
(DataLayout getPointerSize). -/
def ptrSize : Nat := 8

/-- Modulus of a 64-bit machine word. -/
def i64Mod : Nat := 2 ^ 64

/-- Modulus of a 32-bit machine word. -/
def i32Mod : Nat := 2 ^ 32

/-- The INT_MAX bound used by getLimitedValue when reading constant root
counts. -/
def INT_MAX : Nat := 2 ^ 31 - 1

/-- APInt getLimitedValue: the value, saturated at the given limit. -/
def getLimitedValue (v limit : Nat) : Nat := min v limit

/-- Truncation of a natural number to a 64-bit word. -/
def toI64 (n : Nat) : Nat := n % i64Mod

/-- Kinds of instructions the lowering routines emit.  Only the distinction
needed by the claims is kept: which instruction kinds write memory. -/
inductive InstKind where
  | add
  | gep
  | load
  | store
  | memset
  | alloca
  | icmp
  | callInst
  | bitcast
  | intToPtr
  | addrspacecast
deriving DecidableEq

/-- Whether an emitted instruction kind writes memory. -/
def writesMem : InstKind → Bool
  | InstKind.store => true
  | InstKind.memset => true
  | InstKind.callInst => true
  | _ => false

/-- An argument of an intrinsic call site: either a compile-time integer
constant or a dynamic SSA value. -/
inductive Val where
  | constInt (n : Nat)
  | dynVal (id : Nat)
deriving DecidableEq

/- ------------------------------------------------------------------ -/
/- Frame builder: lowerNewGCFrame, lowerPushGCFrame, lowerGetGCFrameSlot -/
/- ------------------------------------------------------------------ -/

/-- Result of lowering a julia.new_gc_frame intrinsic. -/
structure NewFrameResult where
  allocaElems : Nat
  allocaAlign : Nat
  memsetLen : Nat
  memsetByte : Nat
  memsetAlign : Nat
  replacedAllUses : Bool
  erased : Bool
deriving DecidableEq

/-- FinalLowerGC lowerNewGCFrame, given the constant root-count argument:
reads nRoots with getLimitedValue(INT_MAX), emits an alloca of nRoots + 2
pointer slots aligned to 16, a memset of ptrsize * (nRoots + 2) zero bytes at
alignment 16, then replaces all uses of the call and erases it. -/
def lowerNewGCFrame (rootCountArg : Nat) : NewFrameResult :=
  let nRoots := getLimitedValue rootCountArg INT_MAX
  { allocaElems := nRoots + 2
    allocaAlign := 16
    memsetLen := ptrSize * (nRoots + 2)
    memsetByte := 0
    memsetAlign := 16
    replacedAllUses := true
    erased := true }

/-- The memory operations emitted by lowerPushGCFrame, in program order.
Address computations (the GEPs of slots 0 and 1) are omitted; they read no
memory and write no memory. -/
inductive PushOp where
  | storeHeader (slot : Nat) (nRoots : Nat)
  | loadStackTop
  | storePrevTop (slot : Nat)
  | storeFrameToTop
deriving DecidableEq

/-- FinalLowerGC lowerPushGCFrame, given the constant root-count argument:
stores the encoded header JL_GC_ENCODE_PUSHARGS(nRoots) into frame slot 0,
loads the current thread gcstack top and stores it into frame slot 1, and
finally stores the frame pointer into the thread gcstack cell. -/
def lowerPushGCFrame (nRoots : Nat) : List PushOp :=
  [PushOp.storeHeader 0 nRoots,
   PushOp.loadStackTop,
   PushOp.storePrevTop 1,
   PushOp.storeFrameToTop]

/-- Whether a push-frame operation publishes the frame as the new shadow-stack
top (the store of the frame pointer into the thread gcstack cell). -/
def isPublishTop : PushOp → Bool
  | PushOp.storeFrameToTop => true
  | _ => false

/-- Whether a push-frame operation writes the given frame slot. -/
def storesSlot (s : Nat) : PushOp → Bool
  | PushOp.storeHeader i _ => i == s
  | PushOp.storePrevTop i => i == s
  | _ => false

/-- Result of lowering a julia.get_gc_frame_slot intrinsic. -/
structure GetSlotResult where
  addr : Nat
  emitted : List InstKind
  replacedAllUses : Bool
  erased : Bool
deriving DecidableEq

/-- FinalLowerGC lowerGetGCFrameSlot, at the value level: adds 2 to the index
(a 32-bit add, the first two slots are reserved) and emits an inbounds GEP of
the frame base scaled by the pointer size.  Only an add and a GEP are
emitted. -/
def lowerGetGCFrameSlot (frameBase index : Nat) : GetSlotResult :=
  { addr := frameBase + ((index + 2) % i32Mod) * ptrSize
    emitted := [InstKind.add, InstKind.gep]
    replacedAllUses := true
    erased := true }

/- ------------------------------------------------------------------ -/
/- Allocation fast path: the inlined MMTk bump-pointer arithmetic      -/
/- ------------------------------------------------------------------ -/

/-- CreateNSWSub(0, 8): the 64-bit value 0 - 8. -/
def delta_offset : Nat := (i64Mod - 8) % i64Mod

/-- CreateNSWSub(0, cursor): the 64-bit value 0 - cursor. -/
def delta_cursor (cursor : Nat) : Nat := (i64Mod - toI64 cursor) % i64Mod

/-- CreateNSWAdd(delta_offset, delta_cursor). -/
def delta_op (cursor : Nat) : Nat := (delta_offset + delta_cursor cursor) % i64Mod

/-- CreateAnd(delta_op, 15): the 16-byte alignment bit-trick. -/
def fp_delta (cursor : Nat) : Nat := delta_op cursor &&& 15

/-- CreateNSWAdd(cursor, delta): the aligned result synthesized by the
inlined fast path. -/
def alloc_result (cursor : Nat) : Nat := (toI64 cursor + fp_delta cursor) % i64Mod

/-- CreateNSWAdd(result, pool_osize): the new cursor stored back on the fast
path. -/
def new_cursor (cursor osize : Nat) : Nat := (alloc_result cursor + toI64 osize) % i64Mod

/-- CreateNSWAdd(result, sizeof jl_taggedvalue_t): the payload pointer
produced on the fast path (the tagged-value header occupies 8 bytes). -/
def v_raw (cursor : Nat) : Nat := (alloc_result cursor + 8) % i64Mod

/-- Stated from the specification text, for comparison with alloc_result:
aligned_result = cursor - ((0 - 8 - cursor) AND 15), on 64-bit words.  The
subtrahend ((0 - 8 - cursor) AND 15) is the same fp_delta the code computes;
the specification subtracts it where the code adds it. -/
def specAlignedResult (cursor : Nat) : Nat :=
  (toI64 cursor + (i64Mod - fp_delta cursor)) % i64Mod

/- ------------------------------------------------------------------ -/
/- Allocation lowering: lowerGCAllocBytes                              -/
/- ------------------------------------------------------------------ -/

/-- The runtime allocator entry points lowerGCAllocBytes can call. -/
inductive AllocCallee where
  | bigAlloc
  | poolAlloc
  | allocTyped
deriving DecidableEq

/-- An argument of a synthesized allocator call. -/
inductive CallArg where
  | ptls
  | constI32 (n : Nat)
  | constI64 (n : Nat)
  | constSize (n : Nat)
  | sizeVal
  | typeTag
deriving DecidableEq

/-- Terminator of a basic block in the synthesized control flow. -/
inductive Terminator where
  | condBr (cond : String) (onTrue onFalse : String)
  | br (dest : String)
  | passthrough
deriving DecidableEq

/-- A basic block of the synthesized control flow: its name, its phi nodes
(each with its incoming value/predecessor pairs) and its terminator. -/
structure CFGBlock where
  name : String
  phis : List (String × List (String × String))
  term : Terminator
deriving DecidableEq

/-- The four-block diamond synthesized by the inlined MMTk fast path: the
original block (ending in a conditional branch on gt_limit, true to the slow
path), the fastpath and slowpath blocks (each branching unconditionally to
top_cont), and the continuation block top_cont holding the phi node with one
incoming value per new block. -/
def inlineFastpathCFG : List CFGBlock :=
  [ { name := "entry"
      phis := []
      term := Terminator.condBr "gt_limit" "slowpath" "fastpath" },
    { name := "fastpath"
      phis := []
      term := Terminator.br "top_cont" },
    { name := "slowpath"
      phis := []
      term := Terminator.br "top_cont" },
    { name := "top_cont"
      phis := [("phi_fast_slow", [("new_call", "slowpath"), ("v_as_ptr", "fastpath")])]
      term := Terminator.passthrough } ]

/-- Result of lowering a julia.gc_alloc_bytes intrinsic. -/
structure AllocResult where
  straightCall : Option (AllocCallee × List CallArg)
  inlineCFG : Option (List CFGBlock)
  newBlockNames : List String
  splitAfterCallSite : Bool
  slowCall : Option (AllocCallee × List CallArg)
  derefBytes : Nat
  replacedAllUses : Bool
  erased : Bool
deriving DecidableEq

/-- The INLINE_FASTPATH_ALLOCATION constant of the source (always true; false
only for debugging). -/
def INLINE_FASTPATH_ALLOCATION : Bool := true

/-- FinalLowerGC lowerGCAllocBytes.  Parameters: sizeArg is some sz when the
byte-size operand is a compile-time constant (sz its zero-extended value) and
none otherwise; classifyOffset and classifyOsize are the pool offset and the
size class returned by jl_gc_classify_pools(sz) (defined outside this file,
offset negative when the size exceeds the largest pool class); mmtk states
whether the build defines MMTK_GC; inlineFast is the
INLINE_FASTPATH_ALLOCATION flag.  The record mirrors what each branch emits:
the straight-line allocator call if any, the synthesized control-flow diamond
of the inlined fast path if any, the slow-path pool call of that diamond, the
dereferenceable byte attribute, and whether the routine replaced the uses of
the original call and erased it.  On the inlined fast path the routine ends
with a return statement carrying the phi node out of a routine declared void,
so the replacement and erasure of the original call never execute there. -/
def lowerGCAllocBytes (sizeArg : Option Nat) (classifyOffset : Int)
    (classifyOsize : Nat) (mmtk inlineFast : Bool) : AllocResult :=
  match sizeArg with
  | some sz =>
    if classifyOffset < 0 then
      { straightCall := some (AllocCallee.bigAlloc,
          [CallArg.ptls, CallArg.constSize (sz + ptrSize), CallArg.typeTag])
        inlineCFG := none
        newBlockNames := []
        splitAfterCallSite := false
        slowCall := none
        derefBytes := if sz > 0 then sz else 0
        replacedAllUses := true
        erased := true }
    else if !mmtk then
      { straightCall := some (AllocCallee.poolAlloc,
          [CallArg.ptls, CallArg.constI32 classifyOffset.toNat,
           CallArg.constI32 classifyOsize, CallArg.typeTag])
        inlineCFG := none
        newBlockNames := []
        splitAfterCallSite := false
        slowCall := none
        derefBytes := if sz > 0 then sz else 0
        replacedAllUses := true
        erased := true }
    else if inlineFast then
      { straightCall := none
        inlineCFG := some inlineFastpathCFG
        newBlockNames := ["slowpath", "fastpath"]
        splitAfterCallSite := true
        slowCall := some (AllocCallee.poolAlloc,
          [CallArg.ptls, CallArg.constI32 1,
           CallArg.constI32 classifyOsize, CallArg.typeTag])
        derefBytes := 0
        replacedAllUses := false
        erased := false }
    else
      { straightCall := some (AllocCallee.poolAlloc,
          [CallArg.ptls, CallArg.constI32 1, CallArg.constI32 classifyOsize])
        inlineCFG := none
        newBlockNames := []
        splitAfterCallSite := false
        slowCall := none
        derefBytes := 0
        replacedAllUses := true
        erased := true }
  | none =>
      { straightCall := some (AllocCallee.allocTyped,
          [CallArg.ptls, CallArg.sizeVal, CallArg.typeTag])
        inlineCFG := none
        newBlockNames := []
        splitAfterCallSite := false
        slowCall := none
        derefBytes := ptrSize
        replacedAllUses := true
        erased := true }

/- ------------------------------------------------------------------ -/
/- Arity asserts at the head of every lowering routine                 -/
/- ------------------------------------------------------------------ -/

/-- The intrinsics handled by the pass. -/
inductive Intrinsic where
  | newGCFrame
  | pushGCFrame
  | popGCFrame
  | getGCFrameSlot
  | gcAllocBytes
  | queueGCRoot
  | safepoint
  | writeBarrier1
  | writeBarrier2
  | writeBarrier1Slow
  | writeBarrier2Slow
deriving DecidableEq

/-- The documented arity of each intrinsic (the intrinsic inventory table of
the specification). -/
def documentedArity : Intrinsic → Nat
  | Intrinsic.newGCFrame => 1
  | Intrinsic.pushGCFrame => 2
  | Intrinsic.popGCFrame => 1
  | Intrinsic.getGCFrameSlot => 2
  | Intrinsic.gcAllocBytes => 3
  | Intrinsic.queueGCRoot => 1
  | Intrinsic.safepoint => 1
  | Intrinsic.writeBarrier1 => 1
  | Intrinsic.writeBarrier2 => 2
  | Intrinsic.writeBarrier1Slow => 1
  | Intrinsic.writeBarrier2Slow => 2

/-- Entry of lowerNewGCFrame from a call site: asserts one argument, then a
cast of it to a constant integer; a failed assert aborts (none), nothing is
emitted or rewritten. -/
def lowerNewGCFrameCall (args : List Val) : Option NewFrameResult :=
  match args with
  | [Val.constInt n] => some (lowerNewGCFrame n)
  | _ => none

/-- Entry of lowerPushGCFrame from a call site: asserts two arguments, the
second a constant integer root count. -/
def lowerPushGCFrameCall (args : List Val) : Option (List PushOp) :=
  match args with
  | [_, Val.constInt n] => some (lowerPushGCFrame n)
  | _ => none

/-- Entry of lowerPopGCFrame from a call site: asserts one argument; emits a
GEP of slot 1, a load of the saved previous top, and a store of it into the
thread gcstack cell. -/
def lowerPopGCFrameCall (args : List Val) : Option (List InstKind) :=
  if args.length = 1 then
    some [InstKind.gep, InstKind.load, InstKind.store]
  else none

/-- Entry of lowerGetGCFrameSlot from a call site: asserts two arguments. -/
def lowerGetGCFrameSlotCall (args : List Val) : Option (List InstKind) :=
  if args.length = 2 then some [InstKind.add, InstKind.gep] else none

/-- Entry of lowerGCAllocBytes from a call site: asserts three arguments (the
emitted sequence itself is modelled by lowerGCAllocBytes). -/
def lowerGCAllocBytesCall (args : List Val) : Option Unit :=
  if args.length = 3 then some () else none

/-- Entry of lowerQueueGCRoot from a call site: asserts one argument, then
only redirects the called function to the runtime root-queue entry point. -/
def lowerQueueGCRootCall (args : List Val) : Option Unit :=
  if args.length = 1 then some () else none

/-- Entry of lowerSafepoint from a call site: asserts one argument; emits a
volatile load of the signal page and erases the call. -/
def lowerSafepointCall (args : List Val) : Option (List InstKind) :=
  if args.length = 1 then some [InstKind.load] else none

/-- Entry of lowerWriteBarrier1 from a call site: asserts one argument, then
only redirects the called function. -/
def lowerWriteBarrier1Call (args : List Val) : Option Unit :=
  if args.length = 1 then some () else none

/-- Entry of lowerWriteBarrier2 from a call site: asserts two arguments. -/
def lowerWriteBarrier2Call (args : List Val) : Option Unit :=
  if args.length = 2 then some () else none

/-- Entry of lowerWriteBarrier1Slow from a call site: asserts one argument. -/
def lowerWriteBarrier1SlowCall (args : List Val) : Option Unit :=
  if args.length = 1 then some () else none

/-- Entry of lowerWriteBarrier2Slow from a call site: asserts two
arguments. -/
def lowerWriteBarrier2SlowCall (args : List Val) : Option Unit :=
  if args.length = 2 then some () else none

/-- Whether the lowering routine dispatched for the given intrinsic aborts on
the given argument list (its leading assert fails), leaving the call
unrewritten. -/
def loweringAborts (i : Intrinsic) (args : List Val) : Bool :=
  match i with
  | Intrinsic.newGCFrame => (lowerNewGCFrameCall args).isNone
  | Intrinsic.pushGCFrame => (lowerPushGCFrameCall args).isNone
  | Intrinsic.popGCFrame => (lowerPopGCFrameCall args).isNone
  | Intrinsic.getGCFrameSlot => (lowerGetGCFrameSlotCall args).isNone
  | Intrinsic.gcAllocBytes => (lowerGCAllocBytesCall args).isNone
  | Intrinsic.queueGCRoot => (lowerQueueGCRootCall args).isNone
  | Intrinsic.safepoint => (lowerSafepointCall args).isNone
  | Intrinsic.writeBarrier1 => (lowerWriteBarrier1Call args).isNone
  | Intrinsic.writeBarrier2 => (lowerWriteBarrier2Call args).isNone
  | Intrinsic.writeBarrier1Slow => (lowerWriteBarrier1SlowCall args).isNone
  | Intrinsic.writeBarrier2Slow => (lowerWriteBarrier2SlowCall args).isNone

/- ------------------------------------------------------------------ -/
/- Driver: FinalLowerGC runOnFunction and FinalLowerGCPass run         -/
/- ------------------------------------------------------------------ -/

/-- An instruction of the abstract function body: a recognized intrinsic
call, or anything else. -/
inductive BodyInst where
  | intr (i : Intrinsic) (args : List Val)
  | otherInst (id : Nat)
deriving DecidableEq

/-- The function as the driver sees it: whether the module declares the
pgcstack getter or the adopt-thread function, the call identifying the
thread-context pointer if the function contains one (getPGCstack), and the
instruction stream. -/
structure IRFunction where
  hasPgcstackGetter : Bool
  hasAdoptThread : Bool
  pgcstack : Option Nat
  body : List BodyInst
deriving DecidableEq

/-- One step of the instruction scan: a recognized intrinsic call is
dispatched to its lowering routine and replaced by the sequence that routine
emits; other instructions stay. -/
def lowerBodyInst : BodyInst → BodyInst
  | BodyInst.intr i _ => BodyInst.otherInst (match i with
      | Intrinsic.newGCFrame => 0
      | Intrinsic.pushGCFrame => 1
      | Intrinsic.popGCFrame => 2
      | Intrinsic.getGCFrameSlot => 3
      | Intrinsic.gcAllocBytes => 4
      | Intrinsic.queueGCRoot => 5
      | Intrinsic.safepoint => 6
      | Intrinsic.writeBarrier1 => 7
      | Intrinsic.writeBarrier2 => 8
      | Intrinsic.writeBarrier1Slow => 9
      | Intrinsic.writeBarrier2Slow => 10)
  | BodyInst.otherInst n => BodyInst.otherInst n

/-- The single forward pass over every instruction. -/
def lowerBody (body : List BodyInst) : List BodyInst :=
  body.map lowerBodyInst

/-- FinalLowerGC runOnFunction: returns false without touching the function
when the module declares neither the pgcstack getter nor the adopt-thread
function, or when getPGCstack finds no call identifying the thread-context
pointer; otherwise resolves the catalog bindings, lowers every recognized
intrinsic call, and returns true. -/
def runOnFunction (F : IRFunction) : Bool × IRFunction :=
  if !F.hasPgcstackGetter && !F.hasAdoptThread then (false, F)
  else
    match F.pgcstack with
    | none => (false, F)
    | some _ => (true, { F with body := lowerBody F.body })

/-- The two analysis-preservation answers the pass can report. -/
inductive PreservedAnalyses where
  | all
  | allInSetCFGAnalyses
deriving DecidableEq

/-- FinalLowerGCPass run: reports the CFG-analyses set when runOnFunction
changed the function and all analyses preserved otherwise. -/
def finalLowerGCPassRun (F : IRFunction) : PreservedAnalyses × IRFunction :=
  let r := runOnFunction F
  if r.1 then (PreservedAnalyses.allInSetCFGAnalyses, r.2)
  else (PreservedAnalyses.all, r.2)

/- ------------------------------------------------------------------ -/
/- Helper lemmas                                                       -/
/- ------------------------------------------------------------------ -/

/-- Bitwise AND with 15 keeps the low four bits. -/
theorem and_fifteen (n : Nat) : n &&& 15 = n % 16 :=
  Nat.and_pow_two_sub_one_eq_mod n 4

/-- The modulus of a 64-bit word as a literal. -/
theorem i64Mod_eq : i64Mod = 18446744073709551616 := by norm_num [i64Mod]

/-- The alignment adjustment of the inlined fast path is below 16. -/
theorem fp_delta_lt (cursor : Nat) : fp_delta cursor < 16 := by
  rw [fp_delta, and_fifteen]
  exact Nat.mod_lt _ (by norm_num)

/- ------------------------------------------------------------------ -/
/- Claims                                                              -/
/- ------------------------------------------------------------------ -/

/-- C2 (counterexample): at cursor 0 the value synthesized by the inlined
fast path is 8, while the formula of the specification (cursor minus the
masked delta) gives 2 to the 64 minus 8; the synthesized value is not that
formula and is not divisible by 16. -/
theorem c2_alignment_counterexample :
    alloc_result 0 = 8
    ∧ specAlignedResult 0 = i64Mod - 8
    ∧ alloc_result 0 ≠ specAlignedResult 0
    ∧ alloc_result 0 % 16 ≠ 0 := by
  refine ⟨?_, ?_, ?_, ?_⟩ <;>
    simp [alloc_result, specAlignedResult, fp_delta, delta_op, delta_offset,
      delta_cursor, toI64, i64Mod_eq, and_fifteen]

/-- C2 (amended): the inlined fast path computes
aligned_result = cursor + ((0 - 8 - cursor) AND 15) — addition, not the
subtraction stated in the specification — and for every 64-bit cursor C and
object size O it satisfies aligned_result mod 16 = 8 (so the payload pointer
aligned_result + 8 is 16-byte aligned), aligned_result is at least C - 15
(indeed at least C) whenever C + 15 does not wrap, and
new_cursor = aligned_result + O modulo 2 to the 64. -/
theorem c2_fastpath_alignment (cursor osize : Nat)
    (hc : cursor < i64Mod) (_ho : osize < i64Mod) :
    alloc_result cursor % 16 = 8
    ∧ (cursor + 15 < i64Mod → cursor - 15 ≤ alloc_result cursor)
    ∧ new_cursor cursor osize = (alloc_result cursor + osize) % i64Mod := by
  have hd : fp_delta cursor = ((i64Mod - 8) % i64Mod + (i64Mod - cursor % i64Mod) % i64Mod) % i64Mod % 16 := by
    rw [fp_delta, and_fifteen, delta_op, delta_offset, delta_cursor, toI64]
  have hdlt := fp_delta_lt cursor
  rw [i64Mod_eq] at hd hc ⊢
  refine ⟨?_, ?_, ?_⟩
  · rw [alloc_result, toI64, i64Mod_eq]
    omega
  · intro hw
    rw [alloc_result, toI64, i64Mod_eq]
    omega
  · rw [new_cursor, toI64, i64Mod_eq]
    omega

/-- C2 (witness for the amended claim): the amended claim evaluated at
cursor 0, object size 16. -/
theorem c2_fastpath_alignment_witness :
    alloc_result 0 % 16 = 8
    ∧ (0 + 15 < i64Mod → 0 - 15 ≤ alloc_result 0)
    ∧ new_cursor 0 16 = (alloc_result 0 + 16) % i64Mod :=
  c2_fastpath_alignment 0 16 (by norm_num [i64Mod]) (by norm_num [i64Mod])

/-- C3: for root counts within the INT_MAX bound enforced when frames are
created, lowering get_gc_frame_slot(frame, index) with 0 <= index < rootCount
yields the address frame_base + (index + 2) * pointer size, and emits only an
add and a GEP, neither of which writes memory. -/
theorem c3_get_frame_slot_addr (frameBase rootCount index : Nat)
    (h1 : index < rootCount) (h2 : rootCount ≤ INT_MAX) :
    (lowerGetGCFrameSlot frameBase index).addr = frameBase + (index + 2) * ptrSize
    ∧ ∀ k ∈ (lowerGetGCFrameSlot frameBase index).emitted, writesMem k = false := by
  constructor
  · have hlt : index + 2 < i32Mod := by
      have : INT_MAX = 2 ^ 31 - 1 := rfl
      rw [this] at h2
      rw [i32Mod]
      omega
    simp [lowerGetGCFrameSlot, Nat.mod_eq_of_lt hlt]
  · intro k hk
    simp only [lowerGetGCFrameSlot, List.mem_cons, List.mem_singleton] at hk
    rcases hk with h | h | h
    · rw [h]; rfl
    · rw [h]; rfl
    · exact absurd h (List.not_mem_nil k)

/-- C3 (witness): the slot-address claim at frame base 1024, root count 4,
index 3. -/
theorem c3_get_frame_slot_addr_witness :
    (lowerGetGCFrameSlot 1024 3).addr = 1024 + (3 + 2) * ptrSize
    ∧ ∀ k ∈ (lowerGetGCFrameSlot 1024 3).emitted, writesMem k = false :=
  c3_get_frame_slot_addr 1024 4 3 (by norm_num) (by norm_num [INT_MAX])

/-- C4: for every constant root count within the INT_MAX saturation bound,
lowering new_gc_frame allocates rootCount + 2 pointer slots with 16-byte
alignment, zero-fills ptrSize * (rootCount + 2) bytes, replaces all uses of
the intrinsic call and erases it. -/
theorem c4_new_frame_lowering (rootCount : Nat) (h : rootCount ≤ INT_MAX) :
    lowerNewGCFrame rootCount =
      { allocaElems := rootCount + 2
        allocaAlign := 16
        memsetLen := ptrSize * (rootCount + 2)
        memsetByte := 0
        memsetAlign := 16
        replacedAllUses := true
        erased := true } := by
  simp [lowerNewGCFrame, getLimitedValue, Nat.min_eq_left h]

/-- C4 (witness): the new-frame claim at root count 3. -/
theorem c4_new_frame_lowering_witness :
    lowerNewGCFrame 3 =
      { allocaElems := 3 + 2
        allocaAlign := 16
        memsetLen := ptrSize * (3 + 2)
        memsetByte := 0
        memsetAlign := 16
        replacedAllUses := true
        erased := true } :=
  c4_new_frame_lowering 3 (by norm_num [INT_MAX])

/-- C5: the push_gc_frame lowering emits exactly four memory operations, in
this order: the header store into slot 0, the load of the current shadow
stack top, the store of that value into slot 1, and last the store publishing
the frame as the new top; no operation before the last one publishes the
frame. -/
theorem c5_push_frame_publish_last (nRoots : Nat) :
    (lowerPushGCFrame nRoots).length = 4
    ∧ storesSlot 0 ((lowerPushGCFrame nRoots).getD 0 PushOp.loadStackTop) = true
    ∧ (lowerPushGCFrame nRoots).getD 1 PushOp.loadStackTop = PushOp.loadStackTop
    ∧ storesSlot 1 ((lowerPushGCFrame nRoots).getD 2 PushOp.loadStackTop) = true
    ∧ (lowerPushGCFrame nRoots).getD 3 PushOp.loadStackTop = PushOp.storeFrameToTop
    ∧ ∀ j, j < 3 → isPublishTop ((lowerPushGCFrame nRoots).getD j PushOp.loadStackTop) = false := by
  refine ⟨rfl, rfl, rfl, rfl, rfl, ?_⟩
  intro j hj
  interval_cases j <;> rfl

/-- C5 (witness): the ordering claim at root count 2, checked at the first
emitted operation. -/
theorem c5_push_frame_publish_last_witness :
    (lowerPushGCFrame 2).length = 4
    ∧ isPublishTop ((lowerPushGCFrame 2).getD 0 PushOp.loadStackTop) = false :=
  ⟨(c5_push_frame_publish_last 2).1,
   (c5_push_frame_publish_last 2).2.2.2.2.2 0 (by norm_num)⟩

/-- C6: when the byte size is not a compile-time constant, the lowering
always calls the generic typed allocator with the zero-extended size, marks
the result dereferenceable for exactly one pointer width, replaces all uses
of the original call and erases it — for every classification outcome, every
collector variant and either state of the inlining flag. -/
theorem c6_nonconstant_size_alloc_typed (classifyOffset : Int)
    (classifyOsize : Nat) (mmtk inlineFast : Bool) :
    (lowerGCAllocBytes none classifyOffset classifyOsize mmtk inlineFast).straightCall
      = some (AllocCallee.allocTyped, [CallArg.ptls, CallArg.sizeVal, CallArg.typeTag])
    ∧ (lowerGCAllocBytes none classifyOffset classifyOsize mmtk inlineFast).derefBytes = ptrSize
    ∧ (lowerGCAllocBytes none classifyOffset classifyOsize mmtk inlineFast).replacedAllUses = true
    ∧ (lowerGCAllocBytes none classifyOffset classifyOsize mmtk inlineFast).erased = true :=
  ⟨rfl, rfl, rfl, rfl⟩

/-- C7: when the function contains no call identifying the thread-context
pointer, the driver returns false and leaves the function unchanged, and the
pass wrapper reports all analyses preserved with the function unchanged. -/
theorem c7_driver_skip (F : IRFunction) (h : F.pgcstack = none) :
    runOnFunction F = (false, F)
    ∧ finalLowerGCPassRun F = (PreservedAnalyses.all, F) := by
  have h1 : runOnFunction F = (false, F) := by
    rw [runOnFunction]
    split
    · rfl
    · rw [h]
  refine ⟨h1, ?_⟩
  rw [finalLowerGCPassRun, h1]
  rfl

/-- C7 (witness): the skip claim on a concrete function with a body but no
thread-context-pointer call. -/
theorem c7_driver_skip_witness :
    runOnFunction
        { hasPgcstackGetter := true
          hasAdoptThread := false
          pgcstack := none
          body := [BodyInst.otherInst 7,
                   BodyInst.intr Intrinsic.safepoint [Val.dynVal 0]] }
      = (false,
        { hasPgcstackGetter := true
          hasAdoptThread := false
          pgcstack := none
          body := [BodyInst.otherInst 7,
                   BodyInst.intr Intrinsic.safepoint [Val.dynVal 0]] })
    ∧ finalLowerGCPassRun
        { hasPgcstackGetter := true
          hasAdoptThread := false
          pgcstack := none
          body := [BodyInst.otherInst 7,
                   BodyInst.intr Intrinsic.safepoint [Val.dynVal 0]] }
      = (PreservedAnalyses.all,
        { hasPgcstackGetter := true
          hasAdoptThread := false
          pgcstack := none
          body := [BodyInst.otherInst 7,
                   BodyInst.intr Intrinsic.safepoint [Val.dynVal 0]] }) :=
  c7_driver_skip _ rfl

/-- C1 (code evaluated at the failing input): on the inlined MMTk fast path
(constant pooled size, MMTK build, INLINE_FASTPATH_ALLOCATION as in the
source) the lowering neither replaces the uses of the original allocation
call nor erases it — the routine ends in a return statement carrying the phi
node out of a void routine — while on the big-object and non-constant paths
the replacement and the erasure do happen. -/
theorem c1_inline_path_keeps_original_call :
    (lowerGCAllocBytes (some 16) 1 16 true INLINE_FASTPATH_ALLOCATION).erased = false
    ∧ (lowerGCAllocBytes (some 16) 1 16 true INLINE_FASTPATH_ALLOCATION).replacedAllUses = false
    ∧ (lowerGCAllocBytes (some 16) (-1) 16 true INLINE_FASTPATH_ALLOCATION).erased = true
    ∧ (lowerGCAllocBytes (some 16) (-1) 16 true INLINE_FASTPATH_ALLOCATION).replacedAllUses = true
    ∧ (lowerGCAllocBytes none 1 16 true INLINE_FASTPATH_ALLOCATION).erased = true
    ∧ (lowerGCAllocBytes none 1 16 true INLINE_FASTPATH_ALLOCATION).replacedAllUses = true := by
  refine ⟨?_, ?_, ?_, ?_, rfl, rfl⟩ <;> simp [lowerGCAllocBytes, INLINE_FASTPATH_ALLOCATION]

/-- C8: for every constant pooled size under the MMTk collector with
inlining enabled, the synthesized control flow is the diamond: the original
block is split right after the call site, exactly the two blocks slowpath and
fastpath are created, the original block ends in a conditional branch on the
limit comparison into them, both branch unconditionally to the continuation
block top_cont, and the phi node there has exactly two incoming values, one
from each new block. -/
theorem c8_inline_diamond (sz classifyOsize : Nat) (classifyOffset : Int)
    (h : ¬ classifyOffset < 0) :
    ∃ cfg,
      (lowerGCAllocBytes (some sz) classifyOffset classifyOsize true true).inlineCFG = some cfg
      ∧ (lowerGCAllocBytes (some sz) classifyOffset classifyOsize true true).newBlockNames
          = ["slowpath", "fastpath"]
      ∧ (lowerGCAllocBytes (some sz) classifyOffset classifyOsize true true).splitAfterCallSite = true
      ∧ cfg.map CFGBlock.name = ["entry", "fastpath", "slowpath", "top_cont"]
      ∧ (cfg.map CFGBlock.term)
          = [Terminator.condBr "gt_limit" "slowpath" "fastpath",
             Terminator.br "top_cont",
             Terminator.br "top_cont",
             Terminator.passthrough]
      ∧ (cfg.map CFGBlock.phis)
          = [[], [], [],
             [("phi_fast_slow", [("new_call", "slowpath"), ("v_as_ptr", "fastpath")])]]
      ∧ ∀ b ∈ cfg, ∀ p ∈ b.phis, (p.2.length = 2 ∧ p.2.map Prod.snd = ["slowpath", "fastpath"]) := by
  refine ⟨inlineFastpathCFG, ?_, ?_, ?_, rfl, rfl, rfl, ?_⟩
  · simp [lowerGCAllocBytes, h]
  · simp [lowerGCAllocBytes, h]
  · simp [lowerGCAllocBytes, h]
  · intro b hb p hp
    fin_cases hb <;> simp_all [inlineFastpathCFG]

/-- C8 (witness): the diamond claim at size 16, size class 16, pool offset
1. -/
theorem c8_inline_diamond_witness :
    ¬ (1 : Int) < 0
    ∧ ∃ cfg,
      (lowerGCAllocBytes (some 16) 1 16 true true).inlineCFG = some cfg
      ∧ (lowerGCAllocBytes (some 16) 1 16 true true).newBlockNames
          = ["slowpath", "fastpath"]
      ∧ (lowerGCAllocBytes (some 16) 1 16 true true).splitAfterCallSite = true
      ∧ cfg.map CFGBlock.name = ["entry", "fastpath", "slowpath", "top_cont"]
      ∧ (cfg.map CFGBlock.term)
          = [Terminator.condBr "gt_limit" "slowpath" "fastpath",
             Terminator.br "top_cont",
             Terminator.br "top_cont",
             Terminator.passthrough]
      ∧ (cfg.map CFGBlock.phis)
          = [[], [], [],
             [("phi_fast_slow", [("new_call", "slowpath"), ("v_as_ptr", "fastpath")])]]
      ∧ ∀ b ∈ cfg, ∀ p ∈ b.phis, (p.2.length = 2 ∧ p.2.map Prod.snd = ["slowpath", "fastpath"]) :=
  ⟨by norm_num, c8_inline_diamond 16 16 1 (by norm_num)⟩

/-- C9 (helper): the new-frame lowering aborts on every argument list whose
length is not 1. -/
theorem lowerNewGCFrameCall_none (args : List Val) (h : args.length ≠ 1) :
    lowerNewGCFrameCall args = none := by
  rcases args with _ | ⟨a, _ | ⟨b, t⟩⟩
  · rfl
  · simp at h
  · cases a <;> rfl

/-- C9 (helper): the push-frame lowering aborts on every argument list whose
length is not 2. -/
theorem lowerPushGCFrameCall_none (args : List Val) (h : args.length ≠ 2) :
    lowerPushGCFrameCall args = none := by
  rcases args with _ | ⟨a, _ | ⟨b, _ | ⟨c, t⟩⟩⟩
  · rfl
  · cases a <;> rfl
  · simp at h
  · cases b <;> rfl

/-- C9: for every intrinsic and every call site whose argument count differs
from the documented arity of that intrinsic, the dispatched lowering routine
aborts on its leading assert; nothing is emitted and the call is not
rewritten. -/
theorem c9_arity_asserts (i : Intrinsic) (args : List Val)
    (h : args.length ≠ documentedArity i) : loweringAborts i args = true := by
  cases i
  case newGCFrame =>
    simp only [documentedArity] at h
    simp [loweringAborts, lowerNewGCFrameCall_none args h]
  case pushGCFrame =>
    simp only [documentedArity] at h
    simp [loweringAborts, lowerPushGCFrameCall_none args h]
  case popGCFrame =>
    simp only [documentedArity] at h
    simp [loweringAborts, lowerPopGCFrameCall, h]
  case getGCFrameSlot =>
    simp only [documentedArity] at h
    simp [loweringAborts, lowerGetGCFrameSlotCall, h]
  case gcAllocBytes =>
    simp only [documentedArity] at h
    simp [loweringAborts, lowerGCAllocBytesCall, h]
  case queueGCRoot =>
    simp only [documentedArity] at h
    simp [loweringAborts, lowerQueueGCRootCall, h]
  case safepoint =>
    simp only [documentedArity] at h
    simp [loweringAborts, lowerSafepointCall, h]
  case writeBarrier1 =>
    simp only [documentedArity] at h
    simp [loweringAborts, lowerWriteBarrier1Call, h]
  case writeBarrier2 =>
    simp only [documentedArity] at h
    simp [loweringAborts, lowerWriteBarrier2Call, h]
  case writeBarrier1Slow =>
    simp only [documentedArity] at h
    simp [loweringAborts, lowerWriteBarrier1SlowCall, h]
  case writeBarrier2Slow =>
    simp only [documentedArity] at h
    simp [loweringAborts, lowerWriteBarrier2SlowCall, h]

/-- C9 (witness): the arity claim for a push_gc_frame call with no
arguments. -/
theorem c9_arity_asserts_witness :
    ([] : List Val).length ≠ documentedArity Intrinsic.pushGCFrame
    ∧ loweringAborts Intrinsic.pushGCFrame [] = true :=
  ⟨by decide, c9_arity_asserts Intrinsic.pushGCFrame [] (by decide)⟩

/-- C10: for every pooled classification outcome, the fallback pool call of
the inlined fast path and the pool call of the inlining-disabled variant both
pass the constant pool offset 1 as second argument, independent of the offset
returned by the compile-time size classification. -/
theorem c10_slow_pool_offset_one (sz classifyOsize : Nat) (classifyOffset : Int)
    (h : ¬ classifyOffset < 0) :
    (lowerGCAllocBytes (some sz) classifyOffset classifyOsize true true).slowCall
      = some (AllocCallee.poolAlloc,
          [CallArg.ptls, CallArg.constI32 1, CallArg.constI32 classifyOsize, CallArg.typeTag])
    ∧ (lowerGCAllocBytes (some sz) classifyOffset classifyOsize true false).straightCall
      = some (AllocCallee.poolAlloc,
          [CallArg.ptls, CallArg.constI32 1, CallArg.constI32 classifyOsize]) := by
  constructor <;> simp [lowerGCAllocBytes, h]

/-- C10 (witness): the constant-offset claim at size 8, size class 16, pool
offset 2. -/
theorem c10_slow_pool_offset_one_witness :
    (lowerGCAllocBytes (some 8) 2 16 true true).slowCall
      = some (AllocCallee.poolAlloc,
          [CallArg.ptls, CallArg.constI32 1, CallArg.constI32 16, CallArg.typeTag])
    ∧ (lowerGCAllocBytes (some 8) 2 16 true false).straightCall
      = some (AllocCallee.poolAlloc,
          [CallArg.ptls, CallArg.constI32 1, CallArg.constI32 16]) :=
  c10_slow_pool_offset_one 8 16 2 (by norm_num)

end FinalGC
